import Mathlib

/-!
Shallow embedding of the lighter-bot market-making core (src/core/state_store.py,
src/modules/account_listener.py, src/modules/self_trade_guard.py,
src/modules/maker_engine.py, src/modules/hedger.py) over exact rationals.

Python `Decimal` and `float` quantities are modelled as `ℚ`; all the
arithmetic exercised by the claims is exact at this precision.  Dictionaries
keyed by market are modelled as association lists, `collections.deque` as
`List` (front = head, `append` = snoc, `appendleft` = cons).
-/

namespace LighterBot

/-- Order side, as the strings "bid" / "ask" used throughout the source. -/
inductive Side where
  | bid
  | ask
deriving DecidableEq, Repr

/-- Our role in a fill, as classified by AccountListener. -/
inductive Role where
  | maker
  | taker
deriving DecidableEq, Repr

/-!
## Method surface of core/state_store.py

`StateStore` (src/core/state_store.py) defines: set_mid/get_mid,
set_inventory/update_inventory/get_inventory, add_order/remove_order/get_orders,
record_volume_sample, record_hedger_simulation, record_maker_edge,
record_taker_slippage, set_account_index/get_account_index.  It does NOT define
record_cash_flow, set_flag/get_flag, mark_guard_blocked/clear_guard_block or
get_guard_block_since, although callers probe for them with hasattr.  The
booleans below record that method surface so that the hasattr-guarded call
sites can be embedded faithfully.
-/

/-- Which optional methods a state object offers (probed with hasattr). -/
structure StateCaps where
  hasUpdateInventory : Bool
  hasRecordVolumeSample : Bool
  hasRecordCashFlow : Bool
  hasRecordMakerEdge : Bool
  hasRecordTakerSlippage : Bool
  hasGetMid : Bool
  hasMarkGuardBlocked : Bool
  hasClearGuardBlock : Bool
  hasGetGuardBlockSince : Bool
  hasGetFlag : Bool
deriving DecidableEq, Repr

/-- Capabilities of the class StateStore in src/core/state_store.py. -/
def stateStoreCaps : StateCaps where
  hasUpdateInventory := true
  hasRecordVolumeSample := true
  hasRecordCashFlow := false
  hasRecordMakerEdge := true
  hasRecordTakerSlippage := true
  hasGetMid := true
  hasMarkGuardBlocked := false
  hasClearGuardBlock := false
  hasGetGuardBlockSince := false
  hasGetFlag := false

/-!
## SelfTradeGuard (src/modules/self_trade_guard.py)
-/

/-- Constructor-resolved configuration of SelfTradeGuard. -/
structure GuardCfg where
  priceBandBps : ℚ
  crossedBookProtection : Bool
  maxPositionUnits : ℚ
  maxInventory : ℚ
deriving DecidableEq, Repr

/-- The constructor defaults of SelfTradeGuard (cfg keys absent). -/
def defaultGuardCfg : GuardCfg where
  priceBandBps := 50
  crossedBookProtection := true
  maxPositionUnits := 1/100
  maxInventory := 1000

/-- SelfTradeGuard._check_crossed_book. -/
def checkCrossedBook (g : GuardCfg) (bid ask : ℚ) : Bool :=
  if ¬ g.crossedBookProtection then true
  else if bid ≥ ask then false
  else true

/-- SelfTradeGuard._check_price_band. -/
def checkPriceBand (g : GuardCfg) (mid bid ask : ℚ) : Bool :=
  let bandFrac := g.priceBandBps / 10000
  let lowerBound := mid * (1 - bandFrac)
  let upperBound := mid * (1 + bandFrac)
  if bid < lowerBound ∨ ask > upperBound then false else true

/-- SelfTradeGuard._check_inventory, with the per-market inventory already
read from the state store (StateStore.get_inventory returns a Decimal). -/
def checkInventory (g : GuardCfg) (inv refMid : ℚ) : Bool :=
  let notional := |inv| * refMid
  if |inv| > g.maxPositionUnits ∨ notional > g.maxInventory then false else true

/-- SelfTradeGuard._get_mid_for_market against a StateStore: get_mid is tried
first; the `mids` / `last_mid` attribute fallbacks do not exist on StateStore,
so a missing stored mid falls through to the mid passed in. -/
def guardRefMid (storedMid : Option ℚ) (fallbackMid : ℚ) : ℚ :=
  storedMid.getD fallbackMid

/-- SelfTradeGuard.is_allowed, with `storedMid` the StateStore mid for the
market and `inv` the StateStore inventory for the market. -/
def guardIsAllowed (g : GuardCfg) (storedMid : Option ℚ) (inv : ℚ)
    (mid bid ask : ℚ) : Bool :=
  if ¬ checkCrossedBook g bid ask then false
  else if ¬ checkPriceBand g mid bid ask then false
  else if ¬ checkInventory g inv (guardRefMid storedMid mid) then false
  else true

/-!
## MakerEngine (src/modules/maker_engine.py)

The fields of `MakerParams` are the constructor-normalised attributes of
MakerEngine (`self.min_size = max(size_min, exchange_min_size)`, min/max
swapped when inverted, `size_scale ≥ 1`, ...).  The regime profile currently
applied and the PnL-guard levels are carried separately, as they are mutable
engine state.  The chaos injector is absent (production configuration), and
live-trading placements & cancels are modelled as events.
-/

/-- Trend bias as returned by MakerEngine._update_trend_state
("both" / "ask" / "bid"); trend disabled always yields both. -/
inductive Bias where
  | both
  | ask
  | bid
deriving DecidableEq, Repr

/-- Constructor-normalised MakerEngine configuration attributes. -/
structure MakerParams where
  baseSize : ℚ
  minSize : ℚ
  maxSize : ℚ
  exchangeMinSize : ℚ
  sizeScale : ℕ
  exchangeMinNotional : ℚ
  inventorySoftCap : ℚ
  spreadBps : ℚ
  randomizeBps : ℚ
  volEnabled : Bool
  volLowBps : ℚ
  volHighBps : ℚ
  volMinSpread : ℚ
  volMaxSpread : ℚ
  volMinSizeMultiplier : ℚ
  volMaxSizeMultiplier : ℚ
  volHighVolThreshold : ℚ
  volHighVolSizeMultiplier : ℚ
  pnlGuardEnabled : Bool
  pnlGuardMinSizeMultiplier : ℚ
  maxCancels : ℕ
  guard : Option GuardCfg
deriving Repr

/-- Currently applied regime profile (MakerEngine._regime_size_multiplier /
_regime_spread_bonus, set by _apply_regime). -/
structure RegimeState where
  sizeMultiplier : ℚ
  spreadBonus : ℚ
deriving DecidableEq, Repr

/-- The aggressive regime with the default profile of _regime_profiles. -/
def aggressiveRegime : RegimeState where
  sizeMultiplier := 1
  spreadBonus := 0

/-- Current PnL-guard levels (_pnl_guard_spread_extra / _pnl_guard_size_multiplier). -/
structure PnlGuardState where
  spreadExtra : ℚ
  sizeMultiplier : ℚ
deriving DecidableEq, Repr

/-- PnL guard at rest (no activation). -/
def pnlGuardIdle : PnlGuardState where
  spreadExtra := 0
  sizeMultiplier := 1

/-- MakerEngine._volatility_factor. -/
def volatilityFactor (p : MakerParams) (volBps : ℚ) : ℚ :=
  if ¬ p.volEnabled then 0
  else if p.volHighBps ≤ p.volLowBps then 0
  else max 0 (min 1 ((volBps - p.volLowBps) / (p.volHighBps - p.volLowBps)))

/-- MakerEngine._spread_for_volatility (volatility_bps is always a float here,
never None, since _update_volatility returns a float). -/
def spreadForVolatility (p : MakerParams) (volBps : ℚ) : ℚ :=
  if ¬ p.volEnabled then p.spreadBps
  else
    let factor := volatilityFactor p volBps
    max (1/1000000) (p.volMinSpread + (p.volMaxSpread - p.volMinSpread) * factor)

/-- MakerEngine._compute_quotes with the chaos injector absent.  `jitter` is
the outcome of random.uniform(-randomize_bps, randomize_bps).  Returns
(bid, ask, spread_bps). -/
def computeQuotes (p : MakerParams) (reg : RegimeState) (pg : PnlGuardState)
    (mid volBps extraSpreadBps jitter : ℚ) : ℚ × ℚ × ℚ :=
  let baseSpread0 := spreadForVolatility p volBps + max 0 extraSpreadBps
  let baseSpread1 := if reg.spreadBonus > 0 then baseSpread0 + reg.spreadBonus else baseSpread0
  let baseSpread2 :=
    if p.pnlGuardEnabled then baseSpread1 + max 0 pg.spreadExtra else baseSpread1
  let bps := max (1/1000000) (baseSpread2 + jitter)
  let half := bps / 20000 * mid
  (max (1/10000000) (mid - half), mid + half, bps)

/-- MakerEngine._min_units_for_notional. -/
def minUnitsForNotional (p : MakerParams) (mid : Option ℚ) : Option ℚ :=
  let degenerate :=
    if p.exchangeMinSize > 0 then some (max p.exchangeMinSize p.minSize) else none
  match mid with
  | none => degenerate
  | some m =>
    if p.exchangeMinNotional ≤ 0 ∨ m ≤ 0 then degenerate
    else
      let scale : ℚ := (max 1 p.sizeScale : ℕ)
      let rawUnits := p.exchangeMinNotional / m
      let quantized := (⌈rawUnits * scale⌉ : ℚ) / scale
      some (max p.exchangeMinSize quantized)

/-- MakerEngine._compute_quote_size against a StateStore: get_inventory never
returns None (it defaults to Decimal 0), so the inventory-ratio curve always
overwrites the `base_size · regime_multiplier` starting value. -/
def computeQuoteSize (p : MakerParams) (reg : RegimeState) (pg : PnlGuardState)
    (mid : Option ℚ) (volBps : ℚ) (inv : ℚ) : ℚ :=
  let _size0 := p.baseSize * reg.sizeMultiplier
  let minS := max (1/1000000) p.minSize
  let maxS := max minS p.maxSize
  let invSoftCap := max (1/1000000000) p.inventorySoftCap
  let rFrac := min 1 (|inv| / invSoftCap)
  let size1 := maxS - (maxS - minS) * rFrac
  let size2 :=
    if p.volEnabled then
      let factor := volatilityFactor p volBps
      let multiplierSpan := p.volMaxSizeMultiplier - p.volMinSizeMultiplier
      let multiplier := p.volMaxSizeMultiplier - multiplierSpan * factor
      let s := size1 * max 0 multiplier
      if p.volHighVolThreshold > 0 ∧ p.volHighVolSizeMultiplier > 0 ∧
          volBps ≥ p.volHighVolThreshold then
        s * p.volHighVolSizeMultiplier
      else s
    else size1
  let size3 := min maxS (max minS size2)
  let size4 := if size3 < p.exchangeMinSize then p.exchangeMinSize else size3
  let size5 :=
    if p.pnlGuardEnabled then
      let guardMultiplier :=
        max p.pnlGuardMinSizeMultiplier (min 1 pg.sizeMultiplier)
      let s := size4 * guardMultiplier
      let s := min maxS (max minS s)
      if s < p.exchangeMinSize then p.exchangeMinSize else s
    else size4
  match minUnitsForNotional p mid with
  | some minUnits =>
    if size5 < minUnits then
      let s := min maxS (max minS minUnits)
      if s < p.exchangeMinSize then p.exchangeMinSize else s
    else size5
  | none => size5

/-- Cancel-discipline and order-tracking state of MakerEngine
(_cancel_count_this_minute, _cancel_window_start, _is_throttled, _open_orders). -/
structure EngineState where
  cancelCount : ℕ
  windowStart : ℚ
  throttled : Bool
  openOrders : ℕ
deriving DecidableEq, Repr

/-- Observable effects of one maker tick: a batch cancel of n tracked orders
(one _record_cancel per batch), a post-only placement, or the guard-block
branch attempting state.mark_guard_blocked (recorded says whether the state
object actually has that method). -/
inductive MEv where
  | cancelBatch (t : ℚ) (n : ℕ)
  | place (s : Side) (price size : ℚ)
  | guardMark (t : ℚ) (recorded : Bool)
deriving DecidableEq, Repr

/-- MakerEngine._check_cancel_discipline. -/
def checkCancelDiscipline (p : MakerParams) (s : EngineState) (now : ℚ) : EngineState :=
  let s1 :=
    if now - s.windowStart ≥ 60 then
      { s with cancelCount := 0, windowStart := now, throttled := false }
    else s
  if s1.cancelCount ≥ p.maxCancels then { s1 with throttled := true } else s1

/-- MakerEngine._cancel_all_orders (live mode): clears the tracked open
orders and records one cancel when any were tracked. -/
def cancelAllOrders (s : EngineState) (now : ℚ) : EngineState × List MEv :=
  if s.openOrders = 0 then (s, [])
  else ({ s with openOrders := 0, cancelCount := s.cancelCount + 1 },
        [MEv.cancelBatch now s.openOrders])

/-- Placement events of _post_quotes (bid placed before ask). -/
def placeEvents (bid ask size : ℚ) (placeBid placeAsk : Bool) : List MEv :=
  (if placeBid then [MEv.place Side.bid bid size] else []) ++
  (if placeAsk then [MEv.place Side.ask ask size] else [])

/-- MakerEngine._post_quotes (live mode): skip everything while throttled,
else cancel all tracked orders and place one post-only order per enabled side
(each successful placement is tracked in _open_orders). -/
def postQuotes (s : EngineState) (now bid ask size : ℚ)
    (placeBid placeAsk : Bool) : EngineState × List MEv :=
  if s.throttled then (s, [])
  else
    let s1 := (cancelAllOrders s now).1
    let evs := (cancelAllOrders s now).2
    let placed := (if placeBid then 1 else 0) + (if placeAsk then 1 else 0)
    ({ s1 with openOrders := s1.openOrders + placed },
     evs ++ placeEvents bid ask size placeBid placeAsk)

/-- Per-tick inputs of the run loop: the wall clock, the StateStore mid,
the StateStore inventory for the market (never None), the volatility EMA
value and pause flags produced by _update_volatility, the (bias, extra
spread) pair produced by _update_trend_state, and the random jitter. -/
structure TickCtx where
  now : ℚ
  mid : Option ℚ
  inventory : ℚ
  volatilityBps : ℚ
  volPaused : Bool
  lowVolPaused : Bool
  trendBias : Bias
  trendExtra : ℚ
  jitter : ℚ
deriving Repr

/-- Phase-2 inventory spread widening of the run loop. -/
def inventorySpreadBps (invAbs : ℚ) : ℚ :=
  if invAbs > 3/100 then 6
  else if invAbs > 2/100 then 4
  else if invAbs > 1/100 then 2
  else 0

/-- Phase-2 inventory size reduction of the run loop. -/
def inventorySizeMultiplier (invAbs : ℚ) : ℚ :=
  if invAbs > 2/100 then 1/2
  else if invAbs > 1/100 then 3/4
  else 1

/-- The (bid, ask) pair the run loop computes on a tick with mid present. -/
def tickBidAsk (p : MakerParams) (reg : RegimeState) (pg : PnlGuardState)
    (c : TickCtx) (mid : ℚ) : ℚ × ℚ :=
  let q := computeQuotes p reg pg mid c.volatilityBps
    (c.trendExtra + inventorySpreadBps |c.inventory|) c.jitter
  (q.1, q.2.1)

/-- The final quote size of the run loop (lines 292-321 of maker_engine.py):
_compute_quote_size, the inventory multiplier, then the re-checks against
exchange_min_size and exchange_min_notional. -/
def tickQuoteSize (p : MakerParams) (reg : RegimeState) (pg : PnlGuardState)
    (c : TickCtx) (mid : ℚ) : ℚ :=
  let qs0 := computeQuoteSize p reg pg (some mid) c.volatilityBps c.inventory
  let qs1 := qs0 * inventorySizeMultiplier |c.inventory|
  let qs2 := if qs1 < p.exchangeMinSize then p.exchangeMinSize else qs1
  if mid ≠ 0 ∧ p.exchangeMinNotional > 0 then
    let minSizeForNotional := p.exchangeMinNotional / mid
    if qs2 < minSizeForNotional then
      let scale : ℚ := (max 1 p.sizeScale : ℕ)
      max qs2 ((⌈minSizeForNotional * scale⌉ : ℚ) / scale)
    else qs2
  else qs2

/-- Whether the guard admits the tick's quotes.  In the run loop the guard is
called with the same market whose StateStore mid produced `mid`, so its
reference mid resolves to `mid` itself, and its inventory read returns the
same inventory the tick read. -/
def tickGuardAllowed (p : MakerParams) (c : TickCtx) (mid bid ask : ℚ) : Bool :=
  match p.guard with
  | none => true
  | some g => guardIsAllowed g (some mid) c.inventory mid bid ask

/-- The enabled sides after the trend bias and the Phase-2 asymmetric
inventory filter (threshold hard-coded to Decimal 0.01). -/
def tickSides (c : TickCtx) : Bool × Bool :=
  let placeBid0 :=
    match c.trendBias with
    | Bias.both => true
    | Bias.bid => true
    | Bias.ask => false
  let placeAsk0 :=
    match c.trendBias with
    | Bias.both => true
    | Bias.ask => true
    | Bias.bid => false
  if |c.inventory| > 1/100 then
    if c.inventory > 0 then (false, placeAsk0) else (placeBid0, false)
  else (placeBid0, placeAsk0)

/-- One iteration of MakerEngine.run (mid acquisition through _post_quotes),
with the chaos injector absent and the state store a StateStore (so the
mark_guard_blocked / clear_guard_block hasattr probes fail). -/
def makerTick (p : MakerParams) (reg : RegimeState) (pg : PnlGuardState)
    (s : EngineState) (c : TickCtx) : EngineState × List MEv :=
  match c.mid with
  | none => (s, [])
  | some mid =>
    if p.volEnabled ∧ (c.volPaused ∨ c.lowVolPaused) then
      cancelAllOrders s c.now
    else
      let bid := (tickBidAsk p reg pg c mid).1
      let ask := (tickBidAsk p reg pg c mid).2
      let quoteSize := tickQuoteSize p reg pg c mid
      let s1 := checkCancelDiscipline p s c.now
      if ¬ tickGuardAllowed p c mid bid ask then
        ((cancelAllOrders s1 c.now).1,
         MEv.guardMark c.now stateStoreCaps.hasMarkGuardBlocked ::
           (cancelAllOrders s1 c.now).2)
      else if quoteSize < p.exchangeMinSize then (s1, [])
      else
        let placeBid := (tickSides c).1
        let placeAsk := (tickSides c).2
        if ¬ placeBid ∧ ¬ placeAsk then cancelAllOrders s1 c.now
        else postQuotes s1 c.now bid ask quoteSize placeBid placeAsk

/-- The run loop over a list of tick contexts, accumulating all events. -/
def runTicks (p : MakerParams) (reg : RegimeState) (pg : PnlGuardState) :
    EngineState → List TickCtx → EngineState × List MEv
  | s, [] => (s, [])
  | s, c :: cs =>
    let (s1, evs) := makerTick p reg pg s c
    let (s2, evs2) := runTicks p reg pg s1 cs
    (s2, evs ++ evs2)

/-!
## AccountListener (src/modules/account_listener.py)
-/

/-- A trade entry of an account_all frame (fields read by
_handle_trade_entry / _compute_base_delta).  Account ids are modelled as
integers (the source compares their str() forms, which coincides). -/
structure TradeEntry where
  marketId : String
  size : ℚ
  price : ℚ
  timestamp : ℚ
  askAccountId : Option ℤ
  bidAccountId : Option ℤ
  isMakerAsk : Bool
  makerAccountId : Option ℤ
deriving Repr

/-- A position entry of an account_all frame. -/
structure PositionEntry where
  position : Option ℚ
  sign : Option ℤ
deriving Repr

/-- One account_all frame: the flattened trade entries and the optional
positions map (None when the frame has no positions key). -/
structure AccountFrame where
  trades : List TradeEntry
  positions : Option (List (String × PositionEntry))
deriving Repr

/-- Constructor-resolved AccountListener configuration. -/
structure ListenerCfg where
  accountIndex : Option ℤ
  marketFilter : List String
  defaultMarket : Option String
  makerFeeActual : ℚ
  takerFeeActual : ℚ
  makerFeePremium : ℚ
  takerFeePremium : ℚ
deriving Repr

/-- Per-market inventory of the StateStore as an association list
(first binding wins, mirroring dict semantics with unique keys). -/
def getInventory (inv : List (String × ℚ)) (market : String) : ℚ :=
  match inv.find? (fun kv => kv.1 = market) with
  | some kv => kv.2
  | none => 0

/-- StateStore.set_inventory. -/
def setInventory (inv : List (String × ℚ)) (market : String) (value : ℚ) :
    List (String × ℚ) :=
  if inv.any (fun kv => kv.1 = market) then
    inv.map (fun kv => if kv.1 = market then (kv.1, value) else kv)
  else inv ++ [(market, value)]

/-- StateStore.update_inventory. -/
def updateInventory (inv : List (String × ℚ)) (market : String) (delta : ℚ) :
    List (String × ℚ) :=
  setInventory inv market (getInventory inv market + delta)

/-- The maker / taker side ids of a trade entry
(`maker_id = str(ask_id) if maker_is_ask else str(bid_id)`). -/
def makerSideId (e : TradeEntry) : Option ℤ :=
  if e.isMakerAsk then e.askAccountId else e.bidAccountId

/-- The taker side id of a trade entry. -/
def takerSideId (e : TradeEntry) : Option ℤ :=
  if e.isMakerAsk then e.bidAccountId else e.askAccountId

/-- Role classification of _handle_trade_entry; none means the trade is not
ours and is dropped.  When the listener has no account index it falls back to
`str(entry.get("maker_account_id") or maker_id)` (Python `or`: a zero id is
falsy), compared against the maker / taker side ids. -/
def classifyRole (cfg : ListenerCfg) (e : TradeEntry) : Option Role :=
  match cfg.accountIndex with
  | some acct =>
    if makerSideId e = some acct then some Role.maker
    else if takerSideId e = some acct then some Role.taker
    else none
  | none =>
    let synced :=
      match e.makerAccountId with
      | some v => if v ≠ 0 then some v else makerSideId e
      | none => makerSideId e
    if synced = makerSideId e then some Role.maker
    else if synced = takerSideId e then some Role.taker
    else none

/-- The falsiness-normalised account id read by _compute_base_delta
(`fill.raw.get("ask_account_id") or fill.raw.get("ask_account")`: a zero id
falls through to the absent alternate key, yielding None). -/
def normAccountId (x : Option ℤ) : Option ℤ :=
  match x with
  | some v => if v = 0 then none else some v
  | none => none

/-- AccountListener._compute_base_delta. -/
def computeBaseDelta (cfg : ListenerCfg) (e : TradeEntry) (role : Role) : ℚ :=
  let askAccount := normAccountId e.askAccountId
  let bidAccount := normAccountId e.bidAccountId
  match cfg.accountIndex with
  | some acct =>
    if askAccount = some acct then -e.size
    else if bidAccount = some acct then e.size
    else
      match role with
      | Role.maker => if e.isMakerAsk then -e.size else e.size
      | Role.taker => if e.isMakerAsk then e.size else -e.size
  | none =>
    match role with
    | Role.maker => if e.isMakerAsk then -e.size else e.size
    | Role.taker => if e.isMakerAsk then e.size else -e.size

/-!
### FIFO realized PnL (_update_fifo_realized)

Lots are `[signed_size, price]` pairs in a deque; head = deque front.
A buy appends its unmatched remainder at the back; a sell prepends its
unmatched remainder at the front (appendleft).
-/

/-- The while loop of the buy branch: match the incoming buy against the
front lots while they are short.  Returns (lots, remaining, realized). -/
def matchShortLots (price : ℚ) : List (ℚ × ℚ) → ℚ → List (ℚ × ℚ) × ℚ × ℚ
  | [], remaining => ([], remaining, 0)
  | (lotSize, lotPrice) :: rest, remaining =>
    if lotSize < 0 ∧ remaining > 0 then
      let matched := min remaining (-lotSize)
      let realizedHere := (lotPrice - price) * matched
      let lotSize2 := lotSize + matched
      let remaining2 := remaining - matched
      if lotSize2 = 0 then
        let (lots3, remaining3, realized3) := matchShortLots price rest remaining2
        (lots3, remaining3, realizedHere + realized3)
      else ((lotSize2, lotPrice) :: rest, remaining2, realizedHere)
    else ((lotSize, lotPrice) :: rest, remaining, 0)

/-- The while loop of the sell branch: match the incoming sell against the
front lots while they are long. -/
def matchLongLots (price : ℚ) : List (ℚ × ℚ) → ℚ → List (ℚ × ℚ) × ℚ × ℚ
  | [], remaining => ([], remaining, 0)
  | (lotSize, lotPrice) :: rest, remaining =>
    if lotSize > 0 ∧ remaining > 0 then
      let matched := min remaining lotSize
      let realizedHere := (price - lotPrice) * matched
      let lotSize2 := lotSize - matched
      let remaining2 := remaining - matched
      if lotSize2 = 0 then
        let (lots3, remaining3, realized3) := matchLongLots price rest remaining2
        (lots3, remaining3, realizedHere + realized3)
      else ((lotSize2, lotPrice) :: rest, remaining2, realizedHere)
    else ((lotSize, lotPrice) :: rest, remaining, 0)

/-- AccountListener._update_fifo_realized for one market: given the lots of
fill.market, the fill's base_delta, price and fee, returns the new lots and
the realized delta added to _fifo_realized_quote (none for a taker fill,
which leaves both untouched). -/
def updateFifoRealized (roleMaker : Bool) (lots : List (ℚ × ℚ))
    (baseDelta price feeActual : ℚ) : List (ℚ × ℚ) × Option ℚ :=
  if ¬ roleMaker then (lots, none)
  else if baseDelta > 0 then
    let (lots2, remaining2, realized2) := matchShortLots price lots baseDelta
    let lots3 := if remaining2 > 0 then lots2 ++ [(remaining2, price)] else lots2
    (lots3, some (realized2 - feeActual))
  else if baseDelta < 0 then
    let (lots2, remaining2, realized2) := matchLongLots price lots (-baseDelta)
    let lots3 := if remaining2 > 0 then (-remaining2, price) :: lots2 else lots2
    (lots3, some (realized2 - feeActual))
  else (lots, some (0 - feeActual))

/-- A FIFO matcher written from the spec's words, for comparison: "a per-market
deque of [signed_size, price] lots.  On a maker fill, if the fill's base_delta
is opposite-signed to the front lot(s), successively match (taking
min(|remaining|, |lot|) size) and accumulate realized; remainder opens a new
lot at the fill's price and sign", with "the oldest unmatched lot always
consumed first" — so a new lot, long or short, always joins at the back. -/
def specFifoStep (lots : List (ℚ × ℚ)) (baseDelta price feeActual : ℚ) :
    List (ℚ × ℚ) × ℚ :=
  if baseDelta > 0 then
    let (lots2, remaining2, realized2) := matchShortLots price lots baseDelta
    let lots3 := if remaining2 > 0 then lots2 ++ [(remaining2, price)] else lots2
    (lots3, realized2 - feeActual)
  else if baseDelta < 0 then
    let (lots2, remaining2, realized2) := matchLongLots price lots (-baseDelta)
    let lots3 := if remaining2 > 0 then lots2 ++ [(-remaining2, price)] else lots2
    (lots3, realized2 - feeActual)
  else (lots, 0 - feeActual)

/-- Fold a list of maker fills (base_delta, price, fee) through the source's
lot update, accumulating total realized. -/
def foldFifo : List (ℚ × ℚ) × ℚ → List (ℚ × ℚ × ℚ) → List (ℚ × ℚ) × ℚ
  | acc, [] => acc
  | (lots, realized), (d, pr, fee) :: fills =>
    let (lots2, r) := updateFifoRealized true lots d pr fee
    foldFifo (lots2, realized + r.getD 0) fills

/-- Fold the same fills through the spec's FIFO matcher. -/
def foldSpecFifo : List (ℚ × ℚ) × ℚ → List (ℚ × ℚ × ℚ) → List (ℚ × ℚ) × ℚ
  | acc, [] => acc
  | (lots, realized), (d, pr, fee) :: fills =>
    let (lots2, r) := specFifoStep lots d pr fee
    foldSpecFifo (lots2, realized + r) fills

/-!
### The per-fill state mutations of _update_state / _handle_trade_entry
-/

/-- A state mutation performed while processing one fill, in program order. -/
inductive Mutation where
  | updateInventory
  | recordVolumeSample
  | recordCashFlow
  | fifoUpdate
  | ledgerAppend
  | recordMakerEdge
  | recordTakerSlippage
  | hedgerOnFill
deriving DecidableEq, Repr

/-- The inputs that decide which optional mutations fire for one fill. -/
structure FillView where
  role : Role
  isMakerAsk : Bool
  size : ℚ
  price : ℚ
  bidIsUs : Bool
  askIsUs : Bool
deriving Repr

/-- The ordered mutation trace of _update_state followed by the tail of
_handle_trade_entry, for a state object with capabilities `caps`, last known
mid `mid` (None when the StateStore has no mid for the market), a metrics
ledger when `ledgerPresent`, and a hedger when `hedgerPresent`.  The
maker-edge mutation fires only when the computed edge is positive; the
taker-slippage mutation only when the taker side can be attributed to us. -/
def updateStateTrace (caps : StateCaps) (f : FillView) (mid : Option ℚ)
    (ledgerPresent hedgerPresent : Bool) : List Mutation :=
  (if caps.hasUpdateInventory then [Mutation.updateInventory] else []) ++
  (if caps.hasRecordVolumeSample then [Mutation.recordVolumeSample] else []) ++
  (if caps.hasRecordCashFlow then [Mutation.recordCashFlow] else []) ++
  [Mutation.fifoUpdate] ++
  (if ledgerPresent then [Mutation.ledgerAppend] else []) ++
  (match mid with
   | none => []
   | some m =>
     if f.role = Role.maker then
       (if caps.hasRecordMakerEdge then
         let edge := if f.isMakerAsk then (f.price - m) * f.size else (m - f.price) * f.size
         if edge > 0 then [Mutation.recordMakerEdge] else []
       else [])
     else
       (if caps.hasRecordTakerSlippage then
         if f.bidIsUs ∨ f.askIsUs then [Mutation.recordTakerSlippage] else []
       else [])) ++
  (if hedgerPresent then [Mutation.hedgerOnFill] else [])

/-!
### Frame handling (_handle_account_all)
-/

/-- A processed fill as appended to self._fills: its market and base delta. -/
structure ProcessedFill where
  market : String
  baseDelta : ℚ
deriving Repr

/-- Listener state threaded through frame handling: the StateStore inventory
and the processed-fill log. -/
structure ListenerState where
  inventory : List (String × ℚ)
  fills : List ProcessedFill
deriving Repr

/-- Initial listener state (empty StateStore, no fills yet). -/
def initialListenerState : ListenerState where
  inventory := []
  fills := []

/-- AccountListener._handle_trade_entry restricted to its state effects on
inventory (via _update_state's update_inventory call, the only mutation of
StateStore._inventory on the fill path) and the processed-fill log. -/
def handleTradeEntry (cfg : ListenerCfg) (st : ListenerState) (e : TradeEntry) :
    ListenerState :=
  let market := "market:" ++ e.marketId
  if cfg.marketFilter ≠ [] ∧ market ∉ cfg.marketFilter then st
  else
    match classifyRole cfg e with
    | none => st
    | some role =>
      let baseDelta := computeBaseDelta cfg e role
      { inventory := updateInventory st.inventory market baseDelta,
        fills := st.fills ++ [⟨market, baseDelta⟩] }

/-- AccountListener._tracked_markets: the market filter when non-empty, else
the StateStore inventory keys, plus the default market. -/
def trackedMarkets (cfg : ListenerCfg) (inv : List (String × ℚ)) : List String :=
  let base := if cfg.marketFilter ≠ [] then cfg.marketFilter
              else inv.map (fun kv => kv.1)
  match cfg.defaultMarket with
  | some m => base ++ [m]
  | none => base

/-- AccountListener._handle_position_entry. -/
def handlePositionEntry (cfg : ListenerCfg) (inv : List (String × ℚ))
    (marketId : String) (e : PositionEntry) : List (String × ℚ) :=
  let market := "market:" ++ marketId
  if cfg.marketFilter ≠ [] ∧ market ∉ cfg.marketFilter then inv
  else
    match e.position with
    | none => setInventory inv market 0
    | some v =>
      let value := match e.sign with
        | some sg => if sg < 0 then -v else v
        | none => v
      setInventory inv market value

/-- The suffix key used to mark a tracked market as seen
(`market.split(":", 1)[-1]`). -/
def marketSuffix (market : String) : String :=
  (market.splitOn ":").getLastD market

/-- AccountListener._handle_account_all: process every trade entry, then
either apply the positions map (resetting tracked markets absent from it) or
— when the frame carries no positions key — reset every tracked market. -/
def handleAccountAll (cfg : ListenerCfg) (st : ListenerState)
    (frame : AccountFrame) : ListenerState :=
  let st1 := frame.trades.foldl (handleTradeEntry cfg) st
  match frame.positions with
  | some posList =>
    let inv2 := posList.foldl
      (fun inv kv => handlePositionEntry cfg inv kv.1 kv.2) st1.inventory
    let seen := posList.map (fun kv => kv.1)
    let inv3 := (trackedMarkets cfg inv2).foldl
      (fun inv m => if marketSuffix m ∈ seen then inv else setInventory inv m 0)
      inv2
    { st1 with inventory := inv3 }
  | none =>
    let inv2 := (trackedMarkets cfg st1.inventory).foldl
      (fun inv m => setInventory inv m 0) st1.inventory
    { st1 with inventory := inv2 }

/-- Process a stream of account_all frames. -/
def handleFrames (cfg : ListenerCfg) (st : ListenerState) :
    List AccountFrame → ListenerState
  | [] => st
  | f :: fs => handleFrames cfg (handleAccountAll cfg st f) fs

/-- Sum of base deltas of the processed fills of one market. -/
def sumBaseDeltas (fills : List ProcessedFill) (market : String) : ℚ :=
  (fills.filter (fun f => f.market = market)).foldl (fun a f => a + f.baseDelta) 0

/-!
## Hedger (src/modules/hedger.py)
-/

/-- Constructor-resolved Hedger configuration. -/
structure HedgerCfg where
  enabled : Bool
  triggerUnits : ℚ
  triggerNotional : Option ℚ
  targetUnits : ℚ
  maxClipUnits : ℚ
  priceOffsetBps : ℚ
  cooldownSeconds : ℚ
  maxSlippageBps : ℚ
  preferPassive : Bool
  passiveTimeoutSeconds : ℚ
  guardEmergencySeconds : ℚ
  guardEmergencyClipMultiplier : ℚ
  guardEmergencyExtraBps : ℚ
  guardEmergencyCooldown : ℚ
  guardClipMultiplier : ℚ
  guardPriceOffsetBps : ℚ
  guardMaxSlippageBps : ℚ
deriving Repr

/-- Mutable hedger state (_next_allowed_ts, _over_trigger_since). -/
structure HedgerState where
  nextAllowedTs : ℚ
  overTriggerSince : Option ℚ
deriving DecidableEq, Repr

/-- Per-wakeup inputs of _maybe_hedge.  `inventory` and `mid` are the
StateStore reads; `guardBlockSince` is the get_guard_block_since probe (None
when the method is missing — as on the repository's StateStore — or unset);
`pnlGuardActive` the get_flag probe (false when get_flag is missing);
`executeSuccess` the outcome of the network-dependent _execute_hedge. -/
structure HedgeCtx where
  now : ℚ
  inventory : Option ℚ
  mid : Option ℚ
  guardBlockSince : Option ℚ
  pnlGuardActive : Bool
  executeSuccess : Bool
deriving Repr

/-- The hedge order handed to _execute_hedge. -/
structure HedgeAction where
  side : Side
  units : ℚ
  price : ℚ
  preferPassive : Bool
  maxSlippageBps : ℚ
deriving DecidableEq, Repr

/-- Hedger._aggressive_price. -/
def aggressivePrice (mid : ℚ) (side : Side) (offsetBps : ℚ) : ℚ :=
  let off := max 0 offsetBps
  let o := off / 10000 * mid
  match side with
  | Side.ask => max 0 (mid - o)
  | Side.bid => mid + o

/-- Hedger._maybe_hedge, with the call to _execute_hedge modelled as the
returned action (the later slippage-cap skip and retries live inside
_execute_hedge). -/
def maybeHedge (cfg : HedgerCfg) (s : HedgerState) (c : HedgeCtx) :
    HedgerState × Option HedgeAction :=
  if ¬ cfg.enabled then (s, none)
  else
    match c.inventory with
    | none => (s, none)
    | some inv =>
      let absInv := |inv|
      if absInv ≤ cfg.triggerUnits then
        ({ s with overTriggerSince := none }, none)
      else
        let s1 := if s.overTriggerSince = none then
            { s with overTriggerSince := some c.now } else s
        match c.mid with
        | none => (s1, none)
        | some mid =>
          let guardEmergencyActive : Bool :=
            decide (cfg.guardEmergencySeconds > 0) &&
            (match c.guardBlockSince with
             | some ts => decide (c.now - ts ≥ cfg.guardEmergencySeconds)
             | none => false)
          let notionalBlocked : Bool :=
            match cfg.triggerNotional with
            | some tn => decide (absInv * mid ≤ tn)
            | none => false
          if notionalBlocked then (s1, none)
          else
            let excessUnits := absInv - cfg.targetUnits
            if excessUnits ≤ 0 then (s1, none)
            else
              let clipLimit :=
                if guardEmergencyActive ∧ cfg.guardEmergencyClipMultiplier > 1 then
                  let cl := cfg.maxClipUnits * cfg.guardEmergencyClipMultiplier
                  if cl > absInv then absInv else cl
                else cfg.maxClipUnits
              let hedgeUnits0 := min excessUnits clipLimit
              let hedgeUnits :=
                if c.pnlGuardActive ∧ cfg.guardClipMultiplier > 0 then
                  min hedgeUnits0 (cfg.maxClipUnits * cfg.guardClipMultiplier)
                else hedgeUnits0
              if hedgeUnits ≤ 0 then (s1, none)
              else
                let side := if inv > 0 then Side.ask else Side.bid
                let passiveTimedOut : Bool :=
                  decide (cfg.passiveTimeoutSeconds > 0) &&
                  (match s1.overTriggerSince with
                   | some t => decide (c.now - t ≥ cfg.passiveTimeoutSeconds)
                   | none => false)
                let preferPassive :=
                  if guardEmergencyActive then false
                  else if passiveTimedOut then false
                  else cfg.preferPassive
                let offsetBps0 :=
                  if c.pnlGuardActive then cfg.guardPriceOffsetBps
                  else cfg.priceOffsetBps
                let offsetBps :=
                  if guardEmergencyActive then offsetBps0 + cfg.guardEmergencyExtraBps
                  else offsetBps0
                let price := aggressivePrice mid side offsetBps
                let s2 := if guardEmergencyActive then
                    { s1 with nextAllowedTs := 0 } else s1
                let slippageCap :=
                  if c.pnlGuardActive then cfg.guardMaxSlippageBps
                  else cfg.maxSlippageBps
                if c.now < s2.nextAllowedTs then (s2, none)
                else
                  let cooldown :=
                    if guardEmergencyActive then max (1/10) cfg.guardEmergencyCooldown
                    else cfg.cooldownSeconds
                  let s3 := { s2 with nextAllowedTs := c.now + cooldown }
                  let s4 := if c.executeSuccess then
                      { s3 with overTriggerSince := none } else s3
                  (s4, some ⟨side, hedgeUnits, price, preferPassive, slippageCap⟩)

/-!
## Helper observations on event lists and concrete scenarios
-/

/-- The timestamp of a cancel batch, if the event is one. -/
def cancelTime : MEv → Option ℚ
  | MEv.cancelBatch t _ => some t
  | _ => none

/-- The size of a placement, if the event is one. -/
def placedSize : MEv → Option ℚ
  | MEv.place _ _ sz => some sz
  | _ => none

/-- A tick on which the only cancel source is _post_quotes: not paused, the
guard admits the computed quotes, and at least one side stays enabled after
the trend / asymmetric-inventory filters. -/
def happyTick (p : MakerParams) (reg : RegimeState) (pg : PnlGuardState)
    (c : TickCtx) : Bool :=
  match c.mid with
  | none => true
  | some mid =>
    (!(p.volEnabled && (c.volPaused || c.lowVolPaused))) &&
    tickGuardAllowed p c mid (tickBidAsk p reg pg c mid).1
      (tickBidAsk p reg pg c mid).2 &&
    ((tickSides c).1 || (tickSides c).2)

/-- MakerEngine attributes for spec scenario S1: size 1.0, size_min 0.5,
size_max 1.5, spread 10 bps, randomize 0, size_scale 100,
exchange_min_size 0.1, exchange_min_notional 0 (so min_size normalises to
max(0.5, 0.1) = 0.5), volatility and trend and PnL guard disabled, default
guard configuration. -/
def s1Params : MakerParams where
  baseSize := 1
  minSize := 1/2
  maxSize := 3/2
  exchangeMinSize := 1/10
  sizeScale := 100
  exchangeMinNotional := 0
  inventorySoftCap := 100
  spreadBps := 10
  randomizeBps := 0
  volEnabled := false
  volLowBps := 5
  volHighBps := 25
  volMinSpread := 10
  volMaxSpread := 20
  volMinSizeMultiplier := 1/2
  volMaxSizeMultiplier := 1
  volHighVolThreshold := 0
  volHighVolSizeMultiplier := 1
  pnlGuardEnabled := false
  pnlGuardMinSizeMultiplier := 3/5
  maxCancels := 30
  guard := some defaultGuardCfg

/-- Scenario S1 tick context: mid 100, zero inventory, no trend samples
(bias both, no extra), no pause, zero jitter. -/
def s1Ctx : TickCtx where
  now := 0
  mid := some 100
  inventory := 0
  volatilityBps := 0
  volPaused := false
  lowVolPaused := false
  trendBias := Bias.both
  trendExtra := 0
  jitter := 0

/-- Fresh engine state at construction time 0. -/
def freshEngine : EngineState where
  cancelCount := 0
  windowStart := 0
  throttled := false
  openOrders := 0

/-- Cancel-budget scenario: max_cancels 5, no guard, otherwise as S1. -/
def budgetParams : MakerParams :=
  { s1Params with maxCancels := 5, guard := none }

/-- A happy-path tick context at wall-clock time t. -/
def tickAt (t : ℚ) : TickCtx := { s1Ctx with now := t }

/-- Tick schedule whose cancels defeat a rolling 60-second budget: one
placement tick at t=0, then re-quote ticks at t=55..59 (five cancels, the
budget), a window reset at t=60 and five more cancels by t=64. -/
def budgetTrace : List TickCtx :=
  ([0, 55, 56, 57, 58, 59, 60, 61, 62, 63, 64] : List ℚ).map tickAt

/-- Guard configured with a 1 bps price band, which denies the 5 bps quotes
of the S1 parameters. -/
def tightBandParams : MakerParams :=
  { s1Params with guard := some { defaultGuardCfg with priceBandBps := 1 } }

/-- Engine state that is tracking two resting orders. -/
def engineWithOrders : EngineState where
  cancelCount := 0
  windowStart := 0
  throttled := false
  openOrders := 2

/-- AccountListener configuration with our account index 7 and the maker
pair market:1 (so market_filter = [market:1], default market market:1). -/
def listener7 : ListenerCfg where
  accountIndex := some 7
  marketFilter := ["market:1"]
  defaultMarket := some "market:1"
  makerFeeActual := 0
  takerFeeActual := 0
  makerFeePremium := 1/50000
  takerFeePremium := 1/5000

/-- A trades-only account_all frame (no positions key): one trade on
market 1 where we are the bid-side taker, buying 1 unit at price 100. -/
def tradesOnlyFrame : AccountFrame where
  trades := [{ marketId := "1", size := 1, price := 100, timestamp := 1,
               askAccountId := some 8, bidAccountId := some 7,
               isMakerAsk := true, makerAccountId := none }]
  positions := none

/-- Maker fills (base_delta, price, fee) for the FIFO claim: sell 1 at 100,
sell 1 at 102, buy 1.5 at 99, all fee-free. -/
def shortThenCover : List (ℚ × ℚ × ℚ) :=
  [(-1, 100, 0), (-1, 102, 0), (3/2, 99, 0)]

/-- Maker fill view for the mutation-order claim: a maker bid-side fill at
price 99 with mid 100 (positive maker edge, so record_maker_edge fires). -/
def makerBidFill : FillView where
  role := Role.maker
  isMakerAsk := false
  size := 1
  price := 99
  bidIsUs := true
  askIsUs := false

/-- Hedger configuration for the trigger-gate claim: enabled, trigger 0.05
units and 5 quote units notional, target 0, clip 0.05. -/
def hedger9Cfg : HedgerCfg where
  enabled := true
  triggerUnits := 1/20
  triggerNotional := some 5
  targetUnits := 0
  maxClipUnits := 1/20
  priceOffsetBps := 8
  cooldownSeconds := 5
  maxSlippageBps := 12
  preferPassive := true
  passiveTimeoutSeconds := 5
  guardEmergencySeconds := 7
  guardEmergencyClipMultiplier := 6/5
  guardEmergencyExtraBps := 4
  guardEmergencyCooldown := 1
  guardClipMultiplier := 3/4
  guardPriceOffsetBps := 8
  guardMaxSlippageBps := 12

/-- A wakeup with inventory 0.1 long and mid 200. -/
def hedger9Ctx : HedgeCtx where
  now := 10
  inventory := some (1/10)
  mid := some 200
  guardBlockSince := none
  pnlGuardActive := false
  executeSuccess := true

/-- The S1 tick context with a long inventory of 0.02 (over the hard-coded
asymmetric threshold of 0.01). -/
def longCtx : TickCtx := { s1Ctx with inventory := 2/100 }

/-!
## Helper lemmas
-/

lemma place_not_mem_cancelAll (s : EngineState) (now : ℚ) (sd : Side) (pr sz : ℚ) :
    MEv.place sd pr sz ∉ (cancelAllOrders s now).2 := by
  unfold cancelAllOrders
  split_ifs <;> simp

lemma cancelAll_openOrders (s : EngineState) (now : ℚ) :
    (cancelAllOrders s now).1.openOrders = 0 := by
  unfold cancelAllOrders
  split_ifs with h
  · exact h
  · rfl

lemma cancelAll_count_le (s : EngineState) (now : ℚ) :
    (cancelAllOrders s now).1.cancelCount ≤ s.cancelCount + 1 := by
  unfold cancelAllOrders
  split_ifs <;> simp

lemma postQuotes_events (s : EngineState) (now bid ask size : ℚ) (pb pa : Bool) :
    (postQuotes s now bid ask size pb pa).2 =
      if s.throttled then []
      else (cancelAllOrders s now).2 ++ placeEvents bid ask size pb pa := by
  unfold postQuotes
  split_ifs <;> rfl

lemma postQuotes_count (s : EngineState) (now bid ask size : ℚ) (pb pa : Bool) :
    (postQuotes s now bid ask size pb pa).1.cancelCount =
      if s.throttled then s.cancelCount else (cancelAllOrders s now).1.cancelCount := by
  unfold postQuotes
  split_ifs <;> rfl

lemma place_mem_postQuotes (s : EngineState) (now bid ask size : ℚ)
    (pb pa : Bool) (sd : Side) (pr sz : ℚ)
    (h : MEv.place sd pr sz ∈ (postQuotes s now bid ask size pb pa).2) :
    (sd = Side.bid ∧ pb = true ∧ pr = bid ∧ sz = size) ∨
    (sd = Side.ask ∧ pa = true ∧ pr = ask ∧ sz = size) := by
  rw [postQuotes_events] at h
  split_ifs at h
  · simp at h
  · simp only [List.mem_append] at h
    rcases h with h | h
    · exact absurd h (place_not_mem_cancelAll _ _ _ _ _)
    · unfold placeEvents at h
      cases pb <;> cases pa <;> simp_all

lemma tickSides_long (c : TickCtx) (h : (1:ℚ)/100 < c.inventory) :
    (tickSides c).1 = false := by
  have hpos : c.inventory > 0 := lt_trans (by norm_num) h
  have habs : |c.inventory| > 1/100 := by
    rw [abs_of_pos hpos]
    exact h
  unfold tickSides
  split_ifs
  rfl

lemma tickSides_short (c : TickCtx) (h : c.inventory < -((1:ℚ)/100)) :
    (tickSides c).2 = false := by
  have hneg : c.inventory < 0 := lt_trans h (by norm_num)
  have hnotpos : ¬ c.inventory > 0 := not_lt.mpr (le_of_lt hneg)
  have habs : |c.inventory| > 1/100 := by
    rw [abs_of_neg hneg]
    linarith
  unfold tickSides
  split_ifs
  rfl

lemma makerTick_place_sides (p : MakerParams) (reg : RegimeState) (pg : PnlGuardState)
    (s : EngineState) (c : TickCtx) (sd : Side) (pr sz : ℚ)
    (h : MEv.place sd pr sz ∈ (makerTick p reg pg s c).2) :
    (sd = Side.bid → (tickSides c).1 = true) ∧
    (sd = Side.ask → (tickSides c).2 = true) := by
  unfold makerTick at h
  cases hmid : c.mid with
  | none =>
    rw [hmid] at h
    simp at h
  | some mid =>
    rw [hmid] at h
    dsimp only at h
    split_ifs at h
    all_goals try dsimp only at h
    all_goals
      first
      | exact absurd h (place_not_mem_cancelAll _ _ _ _ _)
      | exact absurd h (List.not_mem_nil _)
      | (rcases List.mem_cons.mp h with h | h
         · exact absurd h (by simp)
         · exact absurd h (place_not_mem_cancelAll _ _ _ _ _))
      | (rcases place_mem_postQuotes _ _ _ _ _ _ _ _ _ _ h with
          ⟨hsd, hpb, _, _⟩ | ⟨hsd, hpa, _, _⟩
         · subst hsd
           exact ⟨fun _ => hpb, fun hc => by simp at hc⟩
         · subst hsd
           exact ⟨fun hc => by simp at hc, fun _ => hpa⟩)

lemma checkDiscipline_count_le (p : MakerParams) (s : EngineState) (now : ℚ)
    (h : s.cancelCount ≤ p.maxCancels) :
    (checkCancelDiscipline p s now).cancelCount ≤ p.maxCancels := by
  unfold checkCancelDiscipline
  dsimp only
  split_ifs <;> first | simpa using h | simp

lemma checkDiscipline_not_throttled (p : MakerParams) (s : EngineState) (now : ℚ)
    (h : ¬ (checkCancelDiscipline p s now).throttled = true) :
    (checkCancelDiscipline p s now).cancelCount < p.maxCancels := by
  unfold checkCancelDiscipline at h ⊢
  dsimp only at h ⊢
  split_ifs at h ⊢ <;> simp_all <;> omega

lemma happy_parts (p : MakerParams) (reg : RegimeState) (pg : PnlGuardState)
    (c : TickCtx) (mid : ℚ) (hmid : c.mid = some mid)
    (hc : happyTick p reg pg c = true) :
    ¬ (p.volEnabled = true ∧ (c.volPaused = true ∨ c.lowVolPaused = true)) ∧
    tickGuardAllowed p c mid (tickBidAsk p reg pg c mid).1
      (tickBidAsk p reg pg c mid).2 = true ∧
    ¬ (¬ (tickSides c).1 = true ∧ ¬ (tickSides c).2 = true) := by
  unfold happyTick at hc
  rw [hmid] at hc
  simp only [Bool.and_eq_true, Bool.not_eq_true', Bool.and_eq_false_iff,
    Bool.or_eq_true, Bool.or_eq_false_iff] at hc
  obtain ⟨⟨h1, h2⟩, h3⟩ := hc
  refine ⟨?_, h2, ?_⟩
  · rintro ⟨hv, hp⟩
    rcases h1 with h1 | h1
    · simp [hv] at h1
    · rcases hp with hp | hp <;> simp_all
  · rintro ⟨hb, ha⟩
    rcases h3 with h3 | h3 <;> simp_all

lemma makerTick_count_le (p : MakerParams) (reg : RegimeState) (pg : PnlGuardState)
    (s : EngineState) (c : TickCtx)
    (hc : happyTick p reg pg c = true) (h : s.cancelCount ≤ p.maxCancels) :
    (makerTick p reg pg s c).1.cancelCount ≤ p.maxCancels := by
  unfold makerTick
  cases hmid : c.mid with
  | none => exact h
  | some mid =>
    obtain ⟨hpause, hguard, hside⟩ := happy_parts p reg pg c mid hmid hc
    have hguard' : ¬ tickGuardAllowed p c mid (tickBidAsk p reg pg c mid).1
        (tickBidAsk p reg pg c mid).2 = false := by simp [hguard]
    dsimp only
    split_ifs with hsize
    · exact checkDiscipline_count_le p s c.now h
    · rw [postQuotes_count]
      split_ifs with ht
      · exact checkDiscipline_count_le p s c.now h
      · have hlt := checkDiscipline_not_throttled p s c.now (by simp [ht])
        calc (cancelAllOrders (checkCancelDiscipline p s c.now) c.now).1.cancelCount
            ≤ (checkCancelDiscipline p s c.now).cancelCount + 1 := cancelAll_count_le _ _
          _ ≤ p.maxCancels := by omega

lemma makerTick_throttled_events (p : MakerParams) (reg : RegimeState)
    (pg : PnlGuardState) (s : EngineState) (c : TickCtx)
    (hc : happyTick p reg pg c = true)
    (ht : (checkCancelDiscipline p s c.now).throttled = true) :
    (makerTick p reg pg s c).2 = [] := by
  unfold makerTick
  cases hmid : c.mid with
  | none => rfl
  | some mid =>
    obtain ⟨hpause, hguard, hside⟩ := happy_parts p reg pg c mid hmid hc
    have hguard' : ¬ tickGuardAllowed p c mid (tickBidAsk p reg pg c mid).1
        (tickBidAsk p reg pg c mid).2 = false := by simp [hguard]
    dsimp only
    split_ifs with hsize
    · rfl
    · unfold postQuotes
      rw [if_pos ht]

lemma runTicks_count_le (p : MakerParams) (reg : RegimeState) (pg : PnlGuardState) :
    ∀ (ctxs : List TickCtx) (s0 : EngineState),
      (∀ c ∈ ctxs, happyTick p reg pg c = true) →
      s0.cancelCount ≤ p.maxCancels →
      (runTicks p reg pg s0 ctxs).1.cancelCount ≤ p.maxCancels
  | [], _, _, h0 => h0
  | c :: cs, s0, hc, h0 => by
    unfold runTicks
    dsimp only
    exact runTicks_count_le p reg pg cs (makerTick p reg pg s0 c).1
      (fun x hx => hc x (List.mem_cons_of_mem c hx))
      (makerTick_count_le p reg pg s0 c (hc c (List.mem_cons_self c cs)) h0)

lemma quotes_core (mid E : ℚ) (hmid : (1:ℚ)/10000000 ≤ mid) :
    0 < max ((1:ℚ)/10000000) (mid - max (1/1000000) E / 20000 * mid) ∧
    max ((1:ℚ)/10000000) (mid - max (1/1000000) E / 20000 * mid) <
      mid + max (1/1000000) E / 20000 * mid := by
  have hmid0 : (0:ℚ) < mid := lt_of_lt_of_le (by norm_num) hmid
  have hb : (0:ℚ) < max (1/1000000) E := lt_of_lt_of_le (by norm_num) (le_max_left _ _)
  have hhalf : (0:ℚ) < max (1/1000000) E / 20000 * mid := by positivity
  constructor
  · exact lt_of_lt_of_le (by norm_num) (le_max_left _ _)
  · apply max_lt
    · exact lt_of_le_of_lt hmid (lt_add_of_pos_right mid hhalf)
    · linarith

/-!
## Claim theorems
-/

/-- C5: SelfTradeGuard.is_allowed(mid, bid, ask, market) returns false if and
only if at least one rule fails: (1) bid ≥ ask; (2) bid < mid·(1 −
price_band_bps/10000) or ask > mid·(1 + price_band_bps/10000); (3)
|inventory| > max_position_units or |inventory|·ref_mid >
max_inventory_notional, where ref_mid prefers the market's own stored mid and
falls back to the mid passed in.  Proved under crossed_book_protection =
true, the constructor default. -/
theorem self_trade_guard_deny_iff (g : GuardCfg) (storedMid : Option ℚ)
    (inv mid bid ask : ℚ) (hprot : g.crossedBookProtection = true) :
    guardIsAllowed g storedMid inv mid bid ask = false ↔
      (bid ≥ ask ∨
       bid < mid * (1 - g.priceBandBps / 10000) ∨
       ask > mid * (1 + g.priceBandBps / 10000) ∨
       |inv| > g.maxPositionUnits ∨
       |inv| * (storedMid.getD mid) > g.maxInventory) := by
  unfold guardIsAllowed checkCrossedBook checkPriceBand checkInventory guardRefMid
  simp only [hprot]
  split_ifs <;> simp_all <;> tauto

/-- C10: for every mid ≥ 1e-7, every configuration, regime, PnL-guard level,
volatility reading, extra spread and random jitter outcome, _compute_quotes
returns a pair with 0 < bid < ask: the spread in bps is floored strictly
above zero at 1e-6 and the bid is clamped below at 1e-7, so the maker by
itself (chaos injection absent) never constructs a crossed pair. -/
theorem maker_quotes_never_crossed (p : MakerParams) (reg : RegimeState)
    (pg : PnlGuardState) (mid volBps extra jitter : ℚ)
    (hmid : (1:ℚ)/10000000 ≤ mid) :
    0 < (computeQuotes p reg pg mid volBps extra jitter).1 ∧
    (computeQuotes p reg pg mid volBps extra jitter).1 <
      (computeQuotes p reg pg mid volBps extra jitter).2.1 :=
  quotes_core mid _ hmid

/-- C7: on every maker tick, when the per-market inventory is long beyond the
hard-coded asymmetric threshold 0.01 no bid placement occurs, and
symmetrically no ask placement when short beyond it; when both sides end up
disabled on a tick that reaches the asymmetric filter (mid present, not
paused, guard passes, size above the exchange minimum), the engine cancels
all orders (ending with none tracked) and skips the tick. -/
theorem asymmetric_inventory_sides (p : MakerParams) (reg : RegimeState)
    (pg : PnlGuardState) (s : EngineState) (c : TickCtx) :
    ((1:ℚ)/100 < c.inventory →
      ∀ pr sz, MEv.place Side.bid pr sz ∉ (makerTick p reg pg s c).2) ∧
    (c.inventory < -((1:ℚ)/100) →
      ∀ pr sz, MEv.place Side.ask pr sz ∉ (makerTick p reg pg s c).2) ∧
    (∀ mid, c.mid = some mid →
      ¬ (p.volEnabled = true ∧ (c.volPaused = true ∨ c.lowVolPaused = true)) →
      tickGuardAllowed p c mid (tickBidAsk p reg pg c mid).1
        (tickBidAsk p reg pg c mid).2 = true →
      ¬ tickQuoteSize p reg pg c mid < p.exchangeMinSize →
      (tickSides c).1 = false → (tickSides c).2 = false →
      makerTick p reg pg s c = cancelAllOrders (checkCancelDiscipline p s c.now) c.now ∧
      (makerTick p reg pg s c).1.openOrders = 0) := by
  refine ⟨?_, ?_, ?_⟩
  · intro hinv pr sz h
    have hb := (makerTick_place_sides p reg pg s c Side.bid pr sz h).1 rfl
    rw [tickSides_long c hinv] at hb
    exact Bool.false_ne_true hb
  · intro hinv pr sz h
    have ha := (makerTick_place_sides p reg pg s c Side.ask pr sz h).2 rfl
    rw [tickSides_short c hinv] at ha
    exact Bool.false_ne_true ha
  · intro mid hmid hpause hguard hsize hpb hpa
    have heq : makerTick p reg pg s c =
        cancelAllOrders (checkCancelDiscipline p s c.now) c.now := by
      unfold makerTick
      rw [hmid]
      dsimp only
      split_ifs with h1
      · rfl
      · refine absurd ⟨?_, ?_⟩ h1
        · simp [hpb]
        · simp [hpa]
    exact ⟨heq, by rw [heq]; exact cancelAll_openOrders _ _⟩

/-- C6 (amended): on a maker tick where the guard denies the computed
(mid, bid, ask), the events are exactly the mark_guard_blocked attempt
followed by the batch cancel of outstanding orders, no order-placement call
is made, and the tick ends with no tracked orders; since the repository's
StateStore has no mark_guard_blocked method, the hasattr-guarded attempt
records nothing (the event carries recorded = false). -/
theorem guard_denied_tick (p : MakerParams) (reg : RegimeState) (pg : PnlGuardState)
    (s : EngineState) (c : TickCtx) (mid : ℚ)
    (hmid : c.mid = some mid)
    (hpause : ¬ (p.volEnabled = true ∧ (c.volPaused = true ∨ c.lowVolPaused = true)))
    (hdeny : tickGuardAllowed p c mid (tickBidAsk p reg pg c mid).1
      (tickBidAsk p reg pg c mid).2 = false) :
    (makerTick p reg pg s c).2 =
      MEv.guardMark c.now false ::
        (cancelAllOrders (checkCancelDiscipline p s c.now) c.now).2 ∧
    (∀ sd pr sz, MEv.place sd pr sz ∉ (makerTick p reg pg s c).2) ∧
    (makerTick p reg pg s c).1.openOrders = 0 := by
  have hdeny' : ¬ tickGuardAllowed p c mid (tickBidAsk p reg pg c mid).1
      (tickBidAsk p reg pg c mid).2 = true := by
    simp [hdeny]
  have heq : makerTick p reg pg s c =
      ((cancelAllOrders (checkCancelDiscipline p s c.now) c.now).1,
        MEv.guardMark c.now false ::
          (cancelAllOrders (checkCancelDiscipline p s c.now) c.now).2) := by
    unfold makerTick
    rw [hmid]
    dsimp only
    split_ifs
    rfl
  refine ⟨by rw [heq], ?_, by rw [heq]; exact cancelAll_openOrders _ _⟩
  intro sd pr sz hm
  rw [heq] at hm
  rcases List.mem_cons.mp hm with h | h
  · simp at h
  · exact absurd h (place_not_mem_cancelAll _ _ _ _ _)

/-- C2 (amended): the MakerEngine enforces its cancel budget over tumbling
60-second windows, not a rolling one.  On any trace of ticks whose only
cancel source is the quoting path (not paused, guard passes, at least one
side enabled), the per-window cancel counter never exceeds max_cancels, and
any such tick that finds itself throttled after _check_cancel_discipline
emits no events at all: no cancels and no placements. -/
theorem cancel_budget_tumbling_window (p : MakerParams) (reg : RegimeState)
    (pg : PnlGuardState) (s0 : EngineState) (ctxs : List TickCtx)
    (hc : ∀ c ∈ ctxs, happyTick p reg pg c = true)
    (h0 : s0.cancelCount ≤ p.maxCancels) :
    (runTicks p reg pg s0 ctxs).1.cancelCount ≤ p.maxCancels ∧
    (∀ s c, happyTick p reg pg c = true →
      (checkCancelDiscipline p s c.now).throttled = true →
      (makerTick p reg pg s c).2 = []) :=
  ⟨runTicks_count_le p reg pg ctxs s0 hc h0,
   fun s c hhappy ht => makerTick_throttled_events p reg pg s c hhappy ht⟩

/-- C4 (amended): for every processed fill, with the repository's StateStore
(no record_cash_flow method) and a metrics ledger and hedger wired in, the
mutation trace of _update_state / _handle_trade_entry is update_inventory,
record_volume_sample, the FIFO-lot update, MetricsLedger.append, then
optionally record_maker_edge or record_taker_slippage, then hedger.on_fill —
and record_cash_flow is never invoked (its hasattr probe fails). -/
theorem fill_mutation_trace (f : FillView) (mid : Option ℚ) :
    Mutation.recordCashFlow ∉ updateStateTrace stateStoreCaps f mid true true ∧
    (∃ tail,
      updateStateTrace stateStoreCaps f mid true true =
        [Mutation.updateInventory, Mutation.recordVolumeSample, Mutation.fifoUpdate,
         Mutation.ledgerAppend] ++ tail ++ [Mutation.hedgerOnFill] ∧
      (tail = [] ∨ tail = [Mutation.recordMakerEdge] ∨
        tail = [Mutation.recordTakerSlippage])) := by
  have htr : updateStateTrace stateStoreCaps f mid true true =
      [Mutation.updateInventory, Mutation.recordVolumeSample, Mutation.fifoUpdate,
       Mutation.ledgerAppend] ++
      (match mid with
       | none => []
       | some m =>
         if f.role = Role.maker then
           (if (if f.isMakerAsk then (f.price - m) * f.size
                else (m - f.price) * f.size) > 0 then [Mutation.recordMakerEdge] else [])
         else
           (if f.bidIsUs ∨ f.askIsUs then [Mutation.recordTakerSlippage] else [])) ++
      [Mutation.hedgerOnFill] := by
    unfold updateStateTrace
    cases mid <;> simp [stateStoreCaps]
  rw [htr]
  cases mid with
  | none =>
    exact ⟨by simp, [], by simp, Or.inl rfl⟩
  | some m =>
    dsimp only
    split_ifs <;>
      first
      | (refine ⟨?_, [Mutation.recordMakerEdge], ?_, Or.inr (Or.inl rfl)⟩ <;> simp
         done)
      | (refine ⟨?_, [Mutation.recordTakerSlippage], ?_, Or.inr (Or.inr rfl)⟩ <;> simp
         done)
      | (refine ⟨?_, [], ?_, Or.inl rfl⟩ <;> simp
         done)

/-- C9: on every hedger wakeup of an enabled hedger, a hedge order (the
_execute_hedge call, passive or aggressive) is issued only if |inventory| >
trigger_units and, when trigger_notional is configured, |inventory|·mid >
trigger_notional; and whenever |inventory| ≤ trigger_units the wakeup clears
the over-trigger timestamp and issues no order. -/
theorem hedger_trigger_gate (cfg : HedgerCfg) (s : HedgerState) (c : HedgeCtx)
    (hen : cfg.enabled = true) :
    ((maybeHedge cfg s c).2.isSome = true →
      ∃ inv mid, c.inventory = some inv ∧ c.mid = some mid ∧
        cfg.triggerUnits < |inv| ∧
        (∀ tn, cfg.triggerNotional = some tn → tn < |inv| * mid)) ∧
    (∀ inv, c.inventory = some inv → |inv| ≤ cfg.triggerUnits →
      (maybeHedge cfg s c).1.overTriggerSince = none ∧
      (maybeHedge cfg s c).2 = none) := by
  have hen' : ¬ ¬ cfg.enabled = true := not_not_intro hen
  constructor
  · intro hsome
    unfold maybeHedge at hsome
    rw [if_neg hen'] at hsome
    cases hinv : c.inventory with
    | none =>
      rw [hinv] at hsome
      simp at hsome
    | some inv =>
      rw [hinv] at hsome
      dsimp only at hsome
      by_cases htrig : |inv| ≤ cfg.triggerUnits
      · rw [if_pos htrig] at hsome
        simp at hsome
      · rw [if_neg htrig] at hsome
        cases hmid : c.mid with
        | none =>
          rw [hmid] at hsome
          simp at hsome
        | some mid =>
          rw [hmid] at hsome
          dsimp only at hsome
          refine ⟨inv, mid, rfl, rfl, not_le.mp htrig, ?_⟩
          intro tn htn
          by_contra hle
          rw [htn] at hsome
          dsimp only at hsome
          rw [if_pos (decide_eq_true (not_lt.mp hle))] at hsome
          simp at hsome
  · intro inv hinv hle
    unfold maybeHedge
    rw [if_neg hen', hinv]
    dsimp only
    rw [if_pos hle]
    exact ⟨rfl, rfl⟩

/-- C9 witness: with the concrete hedger configuration (enabled, trigger 0.05
units / 5 notional) and a wakeup at inventory 0.1 and mid 200, the trigger
gate holds. -/
theorem hedger_trigger_gate_witness :
    hedger9Cfg.enabled = true ∧
    (((maybeHedge hedger9Cfg ⟨0, none⟩ hedger9Ctx).2.isSome = true →
       ∃ inv mid, hedger9Ctx.inventory = some inv ∧ hedger9Ctx.mid = some mid ∧
         hedger9Cfg.triggerUnits < |inv| ∧
         (∀ tn, hedger9Cfg.triggerNotional = some tn → tn < |inv| * mid)) ∧
     (∀ inv, hedger9Ctx.inventory = some inv → |inv| ≤ hedger9Cfg.triggerUnits →
       (maybeHedge hedger9Cfg ⟨0, none⟩ hedger9Ctx).1.overTriggerSince = none ∧
       (maybeHedge hedger9Cfg ⟨0, none⟩ hedger9Ctx).2 = none)) :=
  ⟨rfl, hedger_trigger_gate hedger9Cfg ⟨0, none⟩ hedger9Ctx rfl⟩

/-- C10 witness: at mid 100 with the S1 parameters, the quote pair satisfies
0 < bid < ask. -/
theorem maker_quotes_never_crossed_witness :
    ((1:ℚ)/10000000 ≤ 100) ∧
    (0 < (computeQuotes s1Params aggressiveRegime pnlGuardIdle 100 0 0 0).1 ∧
     (computeQuotes s1Params aggressiveRegime pnlGuardIdle 100 0 0 0).1 <
       (computeQuotes s1Params aggressiveRegime pnlGuardIdle 100 0 0 0).2.1) :=
  ⟨by norm_num,
   maker_quotes_never_crossed s1Params aggressiveRegime pnlGuardIdle 100 0 0 0
     (by norm_num)⟩

/-- C7 witness: a tick with inventory +0.02 (over the 0.01 threshold) places
no bid. -/
theorem asymmetric_inventory_sides_witness :
    ((1:ℚ)/100 < longCtx.inventory) ∧
    (∀ pr sz, MEv.place Side.bid pr sz ∉
      (makerTick s1Params aggressiveRegime pnlGuardIdle freshEngine longCtx).2) :=
  ⟨by norm_num [longCtx, s1Ctx],
   (asymmetric_inventory_sides s1Params aggressiveRegime pnlGuardIdle freshEngine
       longCtx).1
     (by norm_num [longCtx, s1Ctx])⟩

set_option allowUnsafeReducibility true

section RatEvaluation

attribute [local semireducible] Rat.add Rat.mul Rat.sub Rat.inv Rat.neg Rat.ofScientific

/-- C1: a single trades-only account_all frame (no positions key) carrying one
fill with base_delta +1 on market:1 leaves StateStore inventory 0 for
market:1 — not the sum of base deltas (+1) — because the missing-positions
else-branch of _handle_account_all resets every tracked market to zero after
the fill branch has applied its delta. -/
theorem trades_only_frame_resets_inventory :
    getInventory (handleAccountAll listener7 initialListenerState
      tradesOnlyFrame).inventory "market:1" = 0 ∧
    sumBaseDeltas (handleAccountAll listener7 initialListenerState
      tradesOnlyFrame).fills "market:1" = 1 ∧
    (0 : ℚ) ≠ 1 := by decide

/-- C3: after maker sells of 1 at 100 and 1 at 102, a maker buy of 1.5 at 99
is matched against the NEWEST short lot first (sell remainders are prepended
with appendleft), realizing (102−99)·1 + (100−99)·0.5 = 3.5 and leaving half
of the OLDEST lot (price 100) open, whereas matching the earliest-acquired
short lots first, as the claim states, realizes (100−99)·1 + (102−99)·0.5 =
2.5 and would leave the 102 lot open. -/
theorem fifo_shorts_matched_newest_first :
    (foldFifo ([], 0) shortThenCover).2 = 7/2 ∧
    (foldFifo ([], 0) shortThenCover).1 = [(-(1/2), 100)] ∧
    (foldSpecFifo ([], 0) shortThenCover).2 = 5/2 ∧
    (foldSpecFifo ([], 0) shortThenCover).1 = [(-(1/2), 102)] ∧
    ((7 : ℚ)/2 ≠ 5/2) := by decide

/-- C8 (amended): with the S1 configuration (base_size 1.0, size_min 0.5,
size_max 1.5, spread 10 bps, no jitter, mid 100, zero inventory, aggressive
regime, no PnL guard), one maker tick places exactly two orders at bid 99.95
and ask 100.05 (5 bps each side) with size 1.5 on each side: the
inventory-ratio size curve sets the size to size_max at zero inventory,
overriding base_size. -/
theorem happy_tick_places_bid_ask :
    (makerTick s1Params aggressiveRegime pnlGuardIdle freshEngine s1Ctx).2 =
      [MEv.place Side.bid (1999/20) (3/2), MEv.place Side.ask (2001/20) (3/2)] := by
  decide

/-- C8 counterexample: on the S1 tick both placed sizes are 1.5, not the 1.0
the claim states. -/
theorem happy_tick_size_not_one :
    ((makerTick s1Params aggressiveRegime pnlGuardIdle freshEngine
        s1Ctx).2.filterMap placedSize) = [3/2, 3/2] ∧
    ((3 : ℚ)/2 ≠ 1) := by decide

/-- C2 counterexample: with max_cancels = 5, the tick schedule 0, 55..59,
60..64 produces ten batch cancels timestamped 55..64 — ten cancels inside the
rolling 60-second window [55, 115), twice the budget — because the counter
resets at t = 60, when 60 seconds have elapsed since the tumbling window
start. -/
theorem cancel_budget_rolling_window_counterexample :
    budgetParams.maxCancels = 5 ∧
    (((runTicks budgetParams aggressiveRegime pnlGuardIdle freshEngine
        budgetTrace).2.filterMap cancelTime).filter
      (fun t => decide (55 ≤ t ∧ t < 115))).length = 10 := by decide

/-- C4 counterexample: for a concrete processed maker fill (price 99, mid
100), record_cash_flow is not among the mutations — the repository's
StateStore has no such method, so the hasattr-guarded call never happens —
and the ledger append precedes record_maker_edge, not the other way around. -/
theorem record_cash_flow_never_invoked :
    Mutation.recordCashFlow ∉ updateStateTrace stateStoreCaps makerBidFill
      (some 100) true true ∧
    updateStateTrace stateStoreCaps makerBidFill (some 100) true true =
      [Mutation.updateInventory, Mutation.recordVolumeSample, Mutation.fifoUpdate,
       Mutation.ledgerAppend, Mutation.recordMakerEdge, Mutation.hedgerOnFill] := by
  decide

/-- C6 counterexample: on a tick whose quotes the guard denies (1 bps band
against 5 bps quotes), the engine attempts mark_guard_blocked against the
repository's StateStore, which lacks the method, so no guard-block timestamp
is recorded anywhere (the event carries recorded = false, and no event with
recorded = true exists); the outstanding orders are cancelled and nothing is
placed. -/
theorem guard_block_timestamp_not_recorded :
    (makerTick tightBandParams aggressiveRegime pnlGuardIdle engineWithOrders
        s1Ctx).2 =
      [MEv.guardMark 0 false, MEv.cancelBatch 0 2] ∧
    MEv.guardMark 0 true ∉
      (makerTick tightBandParams aggressiveRegime pnlGuardIdle engineWithOrders
        s1Ctx).2 := by decide

/-- C6 witness: the guard-denied tick theorem applied to the 1 bps band
configuration at mid 100. -/
theorem guard_denied_tick_witness :
    (s1Ctx.mid = some 100 ∧
     tickGuardAllowed tightBandParams s1Ctx 100
       (tickBidAsk tightBandParams aggressiveRegime pnlGuardIdle s1Ctx 100).1
       (tickBidAsk tightBandParams aggressiveRegime pnlGuardIdle s1Ctx 100).2 =
         false) ∧
    ((makerTick tightBandParams aggressiveRegime pnlGuardIdle engineWithOrders
        s1Ctx).2 =
      MEv.guardMark s1Ctx.now false ::
        (cancelAllOrders (checkCancelDiscipline tightBandParams engineWithOrders
          s1Ctx.now) s1Ctx.now).2 ∧
     (∀ sd pr sz, MEv.place sd pr sz ∉
       (makerTick tightBandParams aggressiveRegime pnlGuardIdle engineWithOrders
         s1Ctx).2) ∧
     (makerTick tightBandParams aggressiveRegime pnlGuardIdle engineWithOrders
       s1Ctx).1.openOrders = 0) :=
  ⟨⟨rfl, by decide⟩,
   guard_denied_tick tightBandParams aggressiveRegime pnlGuardIdle engineWithOrders
     s1Ctx 100 rfl (by decide) (by decide)⟩

/-- C2 witness: the tumbling-window budget theorem applied to the concrete
max_cancels = 5 schedule. -/
theorem cancel_budget_tumbling_window_witness :
    (∀ c ∈ budgetTrace, happyTick budgetParams aggressiveRegime pnlGuardIdle c =
      true) ∧
    ((runTicks budgetParams aggressiveRegime pnlGuardIdle freshEngine
        budgetTrace).1.cancelCount ≤ budgetParams.maxCancels ∧
     (∀ s c, happyTick budgetParams aggressiveRegime pnlGuardIdle c = true →
       (checkCancelDiscipline budgetParams s c.now).throttled = true →
       (makerTick budgetParams aggressiveRegime pnlGuardIdle s c).2 = [])) :=
  ⟨by decide,
   cancel_budget_tumbling_window budgetParams aggressiveRegime pnlGuardIdle
     freshEngine budgetTrace (by decide) (by decide)⟩

/-- C5 witness: the deny-iff equivalence applied to the default guard
configuration with a crossed pair bid 101 / ask 100.5 at mid 100. -/
theorem self_trade_guard_deny_iff_witness :
    defaultGuardCfg.crossedBookProtection = true ∧
    (guardIsAllowed defaultGuardCfg none 0 100 101 (201/2) = false ↔
      ((101:ℚ) ≥ 201/2 ∨
       (101:ℚ) < 100 * (1 - defaultGuardCfg.priceBandBps / 10000) ∨
       (201:ℚ)/2 > 100 * (1 + defaultGuardCfg.priceBandBps / 10000) ∨
       |(0:ℚ)| > defaultGuardCfg.maxPositionUnits ∨
       |(0:ℚ)| * ((none : Option ℚ).getD 100) > defaultGuardCfg.maxInventory)) :=
  ⟨rfl, self_trade_guard_deny_iff defaultGuardCfg none 0 100 101 (201/2) rfl⟩

end RatEvaluation

end LighterBot
